import Mathlib

/-!
Verification of the gamification scoring engine of a task-tracker backend.

The Python sources are shallowly embedded: Python `int` arithmetic becomes
`ℤ`/`ℕ`, Python `float` arithmetic becomes exact `ℚ` arithmetic, Python's
`int(...)` conversion (truncation toward zero) becomes `pyTrunc`, Python's
`round(x, 1)` (banker's rounding to one decimal) becomes `pyRound1`, and
Python's `%` (which raises `ZeroDivisionError` on a zero divisor) becomes
the `Except`-valued `pyMod`.
-/

namespace Rebadion

/-- Python `int(q)` on a real value: truncation toward zero — the floor
for non-negative values, the negated floor of the negation otherwise. -/
def pyTrunc (q : ℚ) : ℤ := if q < 0 then -⌊-q⌋ else ⌊q⌋

/-- Python `round(q, 1)`: round to one decimal place, ties to even
(banker's rounding), modelled over exact rationals. -/
def pyRound1 (q : ℚ) : ℚ :=
  let scaled := q * 10
  let f : ℤ := ⌊scaled⌋
  let frac : ℚ := scaled - f
  let r : ℤ :=
    if frac < 1/2 then f
    else if 1/2 < frac then f + 1
    else if f % 2 = 0 then f else f + 1
  (r : ℚ) / 10

/-- Python `a % b` on non-negative ints: raises `ZeroDivisionError` when
`b = 0`, modelled as an error value. -/
inductive PyArithError where
  | zeroDivisionError
deriving DecidableEq, Repr

def pyMod (a b : ℕ) : Except PyArithError ℕ :=
  if b = 0 then .error .zeroDivisionError else .ok (a % b)

/-! ## gamification.py -/

/-- Embeds `calculate_xp_reward(difficulty, estimated_minutes, streak_multiplier)`:
`int((difficulty*20 + estimated_minutes*2) * streak_multiplier)`. -/
def calculate_xp_reward (difficulty estimated_minutes : ℤ)
    (streak_multiplier : ℚ) : ℤ :=
  let base_xp := difficulty * 20
  let time_bonus := estimated_minutes * 2
  pyTrunc (((base_xp + time_bonus : ℤ) : ℚ) * streak_multiplier)

/-- Embeds `calculate_level_from_xp(total_xp)`:
`max(1, min(1000, int(math.sqrt(total_xp / 100)) + 1))`.
For a natural `x`, `⌊Real.sqrt (x / 100)⌋ = Nat.sqrt (x / 100)` (with `Nat`
division), since an integer `m` satisfies `m^2 ≤ x/100` over ℝ iff
`m^2 ≤ ⌊x/100⌋` over ℕ; the embedding uses the computable right-hand side. -/
def calculate_level_from_xp (total_xp : ℕ) : ℕ :=
  let level := Nat.sqrt (total_xp / 100) + 1
  max 1 (min 1000 level)

/-- Embeds `xp_for_next_level(current_level)`: `0` at the 1000 cap, else
`current_level ** 2 * 100`. -/
def xp_for_next_level (current_level : ℕ) : ℕ :=
  if current_level ≥ 1000 then 0
  else current_level ^ 2 * 100

/-- Embeds `calculate_streak(last_active, current_streak)`, with the wall-clock
difference `now - last_active` passed in as `elapsed_seconds`
(`diff.total_seconds()`, a real value, embedded as ℚ). -/
def calculate_streak (elapsed_seconds : ℚ) (current_streak : ℕ) : ℕ × ℚ :=
  if elapsed_seconds < 86400 then
    (current_streak, 1)
  else if elapsed_seconds < 172800 then
    let new_streak := current_streak + 1
    let multiplier : ℚ := 1 + new_streak * (1/10)
    (new_streak, min multiplier 3)
  else
    (0, 1)

/-- The user-stats snapshot consumed by `check_achievements`. -/
structure UserStats where
  tasks_completed : ℕ
  tasks_today : ℕ
  current_streak : ℕ
  level : ℕ
  total_focus_sessions : ℕ
  discipline_score : ℕ
deriving DecidableEq, Repr

/-- The `ACHIEVEMENTS` table: id paired with its `check` predicate, in the
source's insertion order (titles/descriptions/icons omitted: the evaluator
only reads `check`). -/
def ACHIEVEMENTS : List (String × (UserStats → Bool)) :=
  [("first_task", fun stats => decide (stats.tasks_completed ≥ 1)),
   ("speed_demon", fun stats => decide (stats.tasks_today ≥ 5)),
   ("week_warrior", fun stats => decide (stats.current_streak ≥ 7)),
   ("level_10", fun stats => decide (stats.level ≥ 10)),
   ("focus_master", fun stats => decide (stats.total_focus_sessions ≥ 100)),
   ("discipline_god", fun stats => decide (stats.discipline_score ≥ 90))]

/-- Embeds `check_achievements(user_stats)`: collect the ids whose `check` holds,
in table order. -/
def check_achievements (user_stats : UserStats) : List String :=
  (ACHIEVEMENTS.filter (fun a => a.2 user_stats)).map (fun a => a.1)

/-- Embeds `calculate_discipline_score(completed_tasks, missed_tasks, streak,
focus_time)`: base 50, completion-rate term via Python `int()`
(truncation toward zero), streak and focus bonuses, clamped to [0, 100].
The completion-rate term here is evaluated in exact rational arithmetic,
an idealization of the source's double precision that preserves the
final clamp (hence the [0, 100] range bound) but can differ from the
program's exact integer output; `calculate_discipline_score_float` below
reproduces the binary64 semantics of that term. -/
def calculate_discipline_score (completed_tasks missed_tasks streak
    focus_time : ℕ) : ℤ :=
  let base_score : ℤ := 50
  let base_score : ℤ :=
    if completed_tasks + missed_tasks > 0 then
      let completion_rate : ℚ :=
        (completed_tasks : ℚ) / ((completed_tasks : ℚ) + (missed_tasks : ℚ))
      base_score + pyTrunc ((completion_rate - 1/2) * 40)
    else base_score
  let streak_bonus : ℤ := min 20 ((streak : ℤ) * 2)
  let focus_bonus : ℤ := min 10 ((focus_time / 30 : ℕ) : ℤ)
  let final_score := base_score + streak_bonus + focus_bonus
  max 0 (min 100 final_score)

/-- Result record of `calculate_grade`. -/
structure GradeResult where
  grade : String
  score : ℚ
  xp_multiplier : ℚ
  xp_penalty : ℤ
  extra_daily_quests : ℤ
deriving DecidableEq, Repr

/-- Embeds `calculate_grade(score_percentage)`: round to one decimal, then
inclusive-lower-bound thresholds 95/85/70/50/40, with XP penalty and
extra quests below 50. -/
def calculate_grade (score_percentage : ℚ) : GradeResult :=
  let score := pyRound1 score_percentage
  let gm : String × ℚ :=
    if score ≥ 95 then ("A*", 2)
    else if score ≥ 85 then ("A", 3/2)
    else if score ≥ 70 then ("B", 6/5)
    else if score ≥ 50 then ("C", 1)
    else if score ≥ 40 then ("D", 1/2)
    else ("F", 0)
  let xp_penalty : ℤ := if score < 50 then pyTrunc ((50 - score) * 10) else 0
  let extra_quests : ℤ :=
    if score < 50 then max 1 (pyTrunc ((50 - score) / 10)) else 0
  { grade := gm.1, score := score, xp_multiplier := gm.2,
    xp_penalty := xp_penalty, extra_daily_quests := extra_quests }

/-! ## ai_coach.py -/

/-- A focus-session record as read by `detect_burnout_risk`
(`s.get('duration_minutes', 0)` and `s.get('successful', False)`). -/
structure FocusSession where
  duration_minutes : ℕ
  successful : Bool
deriving DecidableEq, Repr

/-- The distinct message texts of `detect_burnout_risk`, abstracted by tag:
`notEnoughData` = "Not enough data yet", `overworkWarning` = the
overworking warning, `droppingRate` = the dropping-success-rate warning,
`doingGreat` = the positive message. -/
inductive BurnoutMessage where
  | notEnoughData
  | overworkWarning
  | droppingRate
  | doingGreat
deriving DecidableEq, Repr

structure BurnoutResult where
  risk_level : String
  message : BurnoutMessage
deriving DecidableEq, Repr

/-- Embeds `detect_burnout_risk(focus_sessions, tasks_completed)`: needs ≥ 7
sessions, then examines `focus_sessions[-7:]` (the last seven): high risk
if the mean duration exceeds 360 minutes, else medium if the success rate
is below one half, else low.  (`tasks_completed` is an unused parameter in
the source.) -/
def detect_burnout_risk (focus_sessions : List FocusSession) : BurnoutResult :=
  if focus_sessions.length < 7 then
    { risk_level := "low", message := .notEnoughData }
  else
    let recent_sessions := focus_sessions.drop (focus_sessions.length - 7)
    let avg_duration : ℚ :=
      (((recent_sessions.map (fun s => s.duration_minutes)).sum : ℕ) : ℚ) / 7
    let success_rate : ℚ :=
      (((recent_sessions.filter (fun s => s.successful)).length : ℕ) : ℚ) / 7
    if avg_duration > 360 then
      { risk_level := "high", message := .overworkWarning }
    else if success_rate < 1/2 then
      { risk_level := "medium", message := .droppingRate }
    else
      { risk_level := "low", message := .doingGreat }

/-! ## server.py -/

/-- The user fields read and written by the completion endpoints. -/
structure UserRec where
  total_xp : ℕ
  xp : ℕ
  level : ℕ
  current_streak : ℕ
  longest_streak : ℕ
deriving DecidableEq, Repr

/-- The task fields read and written by `complete_task`. -/
structure TaskRec where
  completed : Bool
  xp_reward : ℕ
deriving DecidableEq, Repr

/-- The skill-tree fields read and written by `complete_task`. -/
structure SkillTreeRec where
  xp : ℕ
  total_xp : ℕ
  level : ℕ
deriving DecidableEq, Repr

/-- The boss-challenge fields read and written by `complete_boss`. -/
structure BossRec where
  completed : Bool
  xp_reward : ℕ
deriving DecidableEq, Repr

inductive CompleteError where
  | taskNotFound
  | alreadyCompleted
  | zeroDivisionError
deriving DecidableEq, Repr

/-- Response body of a successful completion. -/
structure CompleteResponse where
  xp_gained : ℕ
  new_level : ℕ
  level_up : Bool
deriving DecidableEq, Repr

/-- The per-user database slice touched by `complete_task`: the user
record, the looked-up task (`none` = not found) and the skill-tree record
of the task's tree. -/
structure TaskState where
  user : UserRec
  task : Option TaskRec
  skill : SkillTreeRec
deriving DecidableEq, Repr

/-- Embeds `complete_task` (server.py): 404 when the task is missing, 400 when it
is already completed (before any write); otherwise mark the task complete,
then update the user (where `new_total_xp % xp_for_next_level(new_level)`
raises `ZeroDivisionError` when the divisor is 0 — at that point the task
write has already happened but the user and skill tree are untouched),
then add the XP to the skill tree and recompute its level.  The returned
state is the database after the call. -/
def complete_task (st : TaskState) (elapsed_seconds : ℚ) :
    TaskState × Except CompleteError CompleteResponse :=
  match st.task with
  | none => (st, .error .taskNotFound)
  | some task =>
    if task.completed then (st, .error .alreadyCompleted)
    else
      let st1 : TaskState := { st with task := some { task with completed := true } }
      let xp_gained := task.xp_reward
      let new_total_xp := st.user.total_xp + xp_gained
      let new_level := calculate_level_from_xp new_total_xp
      let streak_mult := calculate_streak elapsed_seconds st.user.current_streak
      let new_streak := streak_mult.1
      let longest_streak := max new_streak st.user.longest_streak
      match pyMod new_total_xp (xp_for_next_level new_level) with
      | .error _ => (st1, .error .zeroDivisionError)
      | .ok residual =>
        let st2 : TaskState := { st1 with user :=
          { total_xp := new_total_xp
            xp := residual
            level := new_level
            current_streak := new_streak
            longest_streak := longest_streak } }
        let skill := st2.skill
        let skill1 : SkillTreeRec :=
          { skill with xp := skill.xp + xp_gained, total_xp := skill.total_xp + xp_gained }
        let skill2 : SkillTreeRec :=
          { skill1 with level := calculate_level_from_xp skill1.total_xp }
        ({ st2 with skill := skill2 },
         .ok { xp_gained := xp_gained
               new_level := new_level
               level_up := decide (new_level > st.user.level) })

/-- The per-user database slice touched by `complete_boss`. -/
structure BossState where
  user : UserRec
  challenge : Option BossRec
deriving DecidableEq, Repr

/-- Embeds `complete_boss` (server.py): 404 when missing, 400 when already
completed (before any write); otherwise mark complete and award the XP
(again `new_total_xp % xp_for_next_level(new_level)` can raise). -/
def complete_boss (st : BossState) :
    BossState × Except CompleteError CompleteResponse :=
  match st.challenge with
  | none => (st, .error .taskNotFound)
  | some challenge =>
    if challenge.completed then (st, .error .alreadyCompleted)
    else
      let st1 : BossState :=
        { st with challenge := some { challenge with completed := true } }
      let xp_gained := challenge.xp_reward
      let new_total_xp := st.user.total_xp + xp_gained
      let new_level := calculate_level_from_xp new_total_xp
      match pyMod new_total_xp (xp_for_next_level new_level) with
      | .error _ => (st1, .error .zeroDivisionError)
      | .ok residual =>
        ({ st1 with user := { st1.user with
             total_xp := new_total_xp
             xp := residual
             level := new_level } },
         .ok { xp_gained := xp_gained
               new_level := new_level
               level_up := decide (new_level > st.user.level) })

/-- The streak multiplier `create_task` passes to `calculate_xp_reward`:
`1.0 + (user.current_streak * 0.1)`, with no cap. -/
def create_task_streak_multiplier (current_streak : ℕ) : ℚ :=
  1 + (current_streak : ℚ) * (1/10)

/-- The frozen `xp_reward` computed at task creation (server.py
`create_task`). -/
def create_task_xp_reward (difficulty estimated_minutes : ℤ)
    (current_streak : ℕ) : ℤ :=
  calculate_xp_reward difficulty estimated_minutes
    (create_task_streak_multiplier current_streak)

/-! ## The discipline-score formula as the specification words it -/

/-- The discipline score as claim C3 words it: the completion-rate term
taken with the mathematical floor (rounding toward negative infinity)
instead of the source's `int()` truncation, everything else unchanged. -/
def discipline_score_claimed_floor (completed missed streak focus_time : ℕ) : ℤ :=
  let rate_term : ℤ :=
    if completed + missed > 0 then
      ⌊(((completed : ℚ) / ((completed : ℚ) + (missed : ℚ))) - 1/2) * 40⌋
    else 0
  max 0 (min 100 (50 + rate_term + min 20 ((streak : ℤ) * 2)
    + min 10 ((focus_time / 30 : ℕ) : ℤ)))

/-! ## IEEE-754 binary64 model for the discipline score's rate term

The source computes the completion-rate term in double precision:
`int((completed/(completed+missed) - 0.5) * 40)`.  CPython's int/int true
division returns the correctly rounded binary64 value of the exact
quotient, and each subsequent float operation rounds its exact result to
nearest, ties to even.  The exact-rational `calculate_discipline_score`
above is an idealization of this: adequate for the [0, 100] range bound,
but its integer output can differ from the program's (e.g. at
completionRate = 3/5 the doubles give term 3 where exact arithmetic gives
4).  `calculate_discipline_score_float` below embeds the float semantics.
-/

/-- Round a rational to the nearest integer, ties to even. -/
def roundHalfEven (x : ℚ) : ℤ :=
  let f : ℤ := ⌊x⌋
  let frac : ℚ := x - f
  if frac < 1/2 then f
  else if 1/2 < frac then f + 1
  else if f % 2 = 0 then f else f + 1

/-- Rounding of a real value to IEEE-754 binary64: scale into
`[2^52, 2^53)`, round the 53-bit significand to nearest (ties to even),
and scale back.  The exponent is unbounded, which is immaterial on the
discipline-score path: the rate lies in [0, 1] (no overflow), and when
the true rate is below the subnormal range both a subnormal/zero double
and this model's tiny normal value are absorbed into exactly −0.5 by the
following subtraction, so the final truncated term agrees with the
program for every input. -/
def fl64 (q : ℚ) : ℚ :=
  if q = 0 then 0
  else
    let e : ℤ := Int.log 2 |q|
    ((roundHalfEven (q * (2:ℚ) ^ (52 - e)) : ℤ) : ℚ) * (2:ℚ) ^ (e - 52)

/-- The completion-rate term as the program computes it:
`int((completion_rate - 0.5) * 40)` with `completion_rate` the correctly
rounded binary64 quotient `completed/(completed+missed)` and the
subtraction and multiplication each rounded to binary64. -/
def float_rate_term (completed missed : ℕ) : ℤ :=
  pyTrunc (fl64 (fl64 (fl64 ((completed : ℚ) / ((completed : ℚ) + (missed : ℚ))) - 1/2) * 40))

/-- Embeds `calculate_discipline_score` with the completion-rate term
evaluated in IEEE-754 binary64 as CPython does; the remaining arithmetic
(base, bonuses, clamp) is exact integer arithmetic in the source. -/
def calculate_discipline_score_float (completed_tasks missed_tasks streak
    focus_time : ℕ) : ℤ :=
  let base_score : ℤ := 50
  let base_score : ℤ :=
    if completed_tasks + missed_tasks > 0 then
      base_score + float_rate_term completed_tasks missed_tasks
    else base_score
  let streak_bonus : ℤ := min 20 ((streak : ℤ) * 2)
  let focus_bonus : ℤ := min 10 ((focus_time / 30 : ℕ) : ℤ)
  let final_score := base_score + streak_bonus + focus_bonus
  max 0 (min 100 final_score)

/-! ## Theorems -/

/-- Rounding an exact multiple of one tenth to one decimal place leaves
it unchanged. -/
theorem pyRound1_tenth (m : ℤ) : pyRound1 ((m : ℚ) / 10) = (m : ℚ) / 10 := by
  have hs : ((m : ℚ) / 10) * 10 = (m : ℚ) := by
    rw [div_mul_cancel₀]
    norm_num
  simp only [pyRound1, hs, Int.floor_intCast, sub_self]
  norm_num

/-- Evaluation fact: `⌊(20 : ℚ)/3⌋ = 6`. -/
theorem floor_twenty_thirds : ⌊(20 : ℚ) / 3⌋ = 6 := by
  rw [Int.floor_eq_iff]
  norm_num

/-- Evaluation fact: `int((1/3 − 1/2)·40) = −6`: Python truncation toward zero of
−20/3. -/
theorem pyTrunc_third_term : pyTrunc (((1 : ℚ)/3 - 1/2) * 40) = -6 := by
  have h : ((1 : ℚ)/3 - 1/2) * 40 = -(20/3) := by norm_num
  rw [h, pyTrunc, if_pos (by norm_num), neg_neg, floor_twenty_thirds]

/-- Evaluation fact: `int(1.0) = 1`. -/
theorem pyTrunc_one : pyTrunc (1 : ℚ) = 1 := by
  rw [pyTrunc, if_neg (by norm_num), Int.floor_one]

/-- Characterization of `Int.log 2` on concrete positive rationals. -/
theorem int_log2_eq (r : ℚ) (e : ℤ) (hr : 0 < r)
    (h1 : ((2:ℕ):ℚ)^e ≤ r) (h2 : r < ((2:ℕ):ℚ)^(e+1)) : Int.log 2 r = e := by
  have hle : e ≤ Int.log 2 r := (Int.zpow_le_iff_le_log one_lt_two hr).mp h1
  have hlt : Int.log 2 r < e + 1 := (Int.lt_zpow_iff_log_lt one_lt_two hr).mp h2
  omega

/-- Evaluation fact: the binary64 value nearest 1/3 is
`6004799503160661 · 2⁻⁵⁴` (= 0.3333333333333333). -/
theorem fl64_one_third : fl64 (1/3 : ℚ) = 6004799503160661 / 2 ^ 54 := by
  have hlog : Int.log 2 |(1/3 : ℚ)| = -2 := by
    rw [abs_of_pos (by norm_num : (0:ℚ) < 1/3)]
    exact int_log2_eq _ _ (by norm_num) (by norm_num) (by norm_num)
  have hrhe : roundHalfEven ((18014398509481984 : ℚ) / 3) = 6004799503160661 := by
    have hfl : ⌊(18014398509481984 : ℚ) / 3⌋ = 6004799503160661 := by
      rw [Int.floor_eq_iff]
      norm_num
    simp only [roundHalfEven, hfl]
    norm_num
  rw [fl64, if_neg (by norm_num), hlog]
  norm_num [hrhe]

/-- Evaluation fact: the double subtraction `0.3333333333333333 − 0.5` is
exact (result −0.16666666666666669 = −3002399751580331 · 2⁻⁵⁴), so
binary64 rounding leaves it unchanged. -/
theorem fl64_sub_half_one_third :
    fl64 (-(3002399751580331 / 2 ^ 54) : ℚ) = -(3002399751580331 / 2 ^ 54) := by
  have hlog : Int.log 2 |(-(3002399751580331 / 2 ^ 54) : ℚ)| = -3 := by
    rw [abs_neg, abs_of_pos (by positivity)]
    exact int_log2_eq _ _ (by positivity) (by norm_num) (by norm_num)
  have hrhe : roundHalfEven ((-6004799503160662 : ℚ)) = -6004799503160662 := by
    have hfl : ⌊(-6004799503160662 : ℚ)⌋ = -6004799503160662 := by
      rw [Int.floor_eq_iff]
      norm_num
    simp only [roundHalfEven, hfl]
    norm_num
  rw [fl64, if_neg (by norm_num), hlog]
  norm_num [hrhe]

/-- Evaluation fact: the double product `−0.16666666666666669 · 40` has a
54-bit significand; rounding ties to the even significand, giving
`−7505999378950828 · 2⁻⁵⁰` (= −6.666666666666667). -/
theorem fl64_mul40_one_third :
    fl64 (-(15011998757901655 / 2 ^ 51) : ℚ) = -(7505999378950828 / 2 ^ 50) := by
  have hlog : Int.log 2 |(-(15011998757901655 / 2 ^ 51) : ℚ)| = 2 := by
    rw [abs_neg, abs_of_pos (by positivity)]
    exact int_log2_eq _ _ (by positivity) (by norm_num) (by norm_num)
  have hrhe : roundHalfEven (-(15011998757901655 / 2) : ℚ) = -7505999378950828 := by
    have hfl : ⌊(-(15011998757901655 / 2) : ℚ)⌋ = -7505999378950828 := by
      rw [Int.floor_eq_iff]
      norm_num
    simp only [roundHalfEven, hfl]
    norm_num
  rw [fl64, if_neg (by norm_num), hlog]
  norm_num [hrhe]

/-- Evaluation fact: `int(−6.666666666666667) = −6`. -/
theorem pyTrunc_mul40_one_third :
    pyTrunc (-(7505999378950828 / 2 ^ 50) : ℚ) = -6 := by
  rw [pyTrunc, if_pos (by norm_num), neg_neg]
  have hfl : ⌊(7505999378950828 : ℚ) / 2 ^ 50⌋ = 6 := by
    rw [Int.floor_eq_iff]
    norm_num
  norm_num [hfl]

/-- Evaluation fact: the program's rate term at completionRate = 1/3
is −6 (int of −6.666666666666667), agreeing with exact truncation
there. -/
theorem float_rate_term_one_two : float_rate_term 1 2 = -6 := by
  have hc : ((1:ℕ) : ℚ) / (((1:ℕ) : ℚ) + ((2:ℕ) : ℚ)) = 1/3 := by norm_num
  rw [float_rate_term, hc, fl64_one_third]
  have h2 : (6004799503160661 : ℚ) / 2 ^ 54 - 1/2 = -(3002399751580331 / 2 ^ 54) := by
    norm_num
  rw [h2, fl64_sub_half_one_third]
  have h3 : (-(3002399751580331 / 2 ^ 54) : ℚ) * 40 = -(15011998757901655 / 2 ^ 51) := by
    norm_num
  rw [h3, fl64_mul40_one_third, pyTrunc_mul40_one_third]

/-- Evaluation fact: the binary64 value nearest 3/5 is
`5404319552844595 · 2⁻⁵³` (= 0.6). -/
theorem fl64_three_fifths : fl64 (3/5 : ℚ) = 5404319552844595 / 2 ^ 53 := by
  have hlog : Int.log 2 |(3/5 : ℚ)| = -1 := by
    rw [abs_of_pos (by norm_num : (0:ℚ) < 3/5)]
    exact int_log2_eq _ _ (by norm_num) (by norm_num) (by norm_num)
  have hrhe : roundHalfEven ((27021597764222976 : ℚ) / 5) = 5404319552844595 := by
    have hfl : ⌊(27021597764222976 : ℚ) / 5⌋ = 5404319552844595 := by
      rw [Int.floor_eq_iff]
      norm_num
    simp only [roundHalfEven, hfl]
    norm_num
  rw [fl64, if_neg (by norm_num), hlog]
  norm_num [hrhe]

/-- Evaluation fact: the double subtraction `0.6 − 0.5` is exact (result
0.09999999999999998 = `900719925474099 · 2⁻⁵³`), so binary64 rounding
leaves it unchanged. -/
theorem fl64_sub_half_three_fifths :
    fl64 (900719925474099 / 2 ^ 53 : ℚ) = 900719925474099 / 2 ^ 53 := by
  have hlog : Int.log 2 |(900719925474099 / 2 ^ 53 : ℚ)| = -4 := by
    rw [abs_of_pos (by positivity)]
    exact int_log2_eq _ _ (by positivity) (by norm_num) (by norm_num)
  have hrhe : roundHalfEven ((7205759403792792 : ℚ)) = 7205759403792792 := by
    have hfl : ⌊(7205759403792792 : ℚ)⌋ = 7205759403792792 := by
      rw [Int.floor_eq_iff]
      norm_num
    simp only [roundHalfEven, hfl]
    norm_num
  rw [fl64, if_neg (by norm_num), hlog]
  norm_num [hrhe]

/-- Evaluation fact: the double product `0.09999999999999998 · 40` is
exactly representable (`4503599627370495 · 2⁻⁵⁰` = 3.9999999999999996),
so binary64 rounding leaves it unchanged. -/
theorem fl64_mul40_three_fifths :
    fl64 (4503599627370495 / 2 ^ 50 : ℚ) = 4503599627370495 / 2 ^ 50 := by
  have hlog : Int.log 2 |(4503599627370495 / 2 ^ 50 : ℚ)| = 1 := by
    rw [abs_of_pos (by positivity)]
    exact int_log2_eq _ _ (by positivity) (by norm_num) (by norm_num)
  have hrhe : roundHalfEven ((9007199254740990 : ℚ)) = 9007199254740990 := by
    have hfl : ⌊(9007199254740990 : ℚ)⌋ = 9007199254740990 := by
      rw [Int.floor_eq_iff]
      norm_num
    simp only [roundHalfEven, hfl]
    norm_num
  rw [fl64, if_neg (by norm_num), hlog]
  norm_num [hrhe]

/-- Evaluation fact: `int(3.9999999999999996) = 3`. -/
theorem pyTrunc_mul40_three_fifths :
    pyTrunc (4503599627370495 / 2 ^ 50 : ℚ) = 3 := by
  rw [pyTrunc, if_neg (by norm_num), Int.floor_eq_iff]
  norm_num

/-- Evaluation fact: the program's rate term at completionRate = 3/5 is 3,
one less than exact truncation, because the doubles give
`(0.6 − 0.5) · 40 = 3.9999999999999996`. -/
theorem float_rate_term_three_two : float_rate_term 3 2 = 3 := by
  have hc : ((3:ℕ) : ℚ) / (((3:ℕ) : ℚ) + ((2:ℕ) : ℚ)) = 3/5 := by norm_num
  rw [float_rate_term, hc, fl64_three_fifths]
  have h2 : (5404319552844595 : ℚ) / 2 ^ 53 - 1/2 = 900719925474099 / 2 ^ 53 := by
    norm_num
  rw [h2, fl64_sub_half_three_fifths]
  have h3 : (900719925474099 / 2 ^ 53 : ℚ) * 40 = 4503599627370495 / 2 ^ 50 := by
    norm_num
  rw [h3, fl64_mul40_three_fifths, pyTrunc_mul40_three_fifths]

/-- Evaluation fact: exact truncation of `(3/5 − 1/2) · 40` is 4 (the
product is exactly 4 in rational arithmetic). -/
theorem pyTrunc_exact_three_fifths :
    pyTrunc ((((3:ℕ) : ℚ) / (((3:ℕ) : ℚ) + ((2:ℕ) : ℚ)) - 1/2) * 40) = 4 := by
  have h : ((((3:ℕ) : ℚ) / (((3:ℕ) : ℚ) + ((2:ℕ) : ℚ)) - 1/2) * 40) = 4 := by
    norm_num
  rw [h, pyTrunc, if_neg (by norm_num)]
  norm_num

/-- C2 counterexample: `calculate_grade(49.9)` returns grade "D", not the
"F" the claim states (49.9 falls in the `score >= 40.0` branch). -/
theorem c2_grade_49_9_not_F :
    (calculate_grade (499/10)).grade = "D" ∧
    (calculate_grade (499/10)).grade ≠ "F" := by
  have h499 : pyRound1 ((499 : ℚ) / 10) = (499 : ℚ) / 10 := by
    have := pyRound1_tenth 499
    norm_num at this
    exact this
  constructor
  · simp only [calculate_grade, h499]
    norm_num
  · simp only [calculate_grade, h499]
    norm_num
    decide

/-- C2 (amended): at the grade boundaries, `grade(95.0)` is "A*" with
multiplier 2.0; `grade(49.9)` is "D" (not "F") with
`xpPenalty = trunc(0.1*10) = 1`; and `grade(50.0)` is "C" with
`xpPenalty = 0`. -/
theorem c2_grade_boundaries :
    (calculate_grade 95).grade = "A*" ∧
    (calculate_grade 95).xp_multiplier = 2 ∧
    (calculate_grade (499/10)).grade = "D" ∧
    (calculate_grade (499/10)).xp_penalty = 1 ∧
    (calculate_grade 50).grade = "C" ∧
    (calculate_grade 50).xp_penalty = 0 := by
  have h95 : pyRound1 (95 : ℚ) = (95 : ℚ) := by
    have := pyRound1_tenth 950
    norm_num at this
    exact this
  have h50 : pyRound1 (50 : ℚ) = (50 : ℚ) := by
    have := pyRound1_tenth 500
    norm_num at this
    exact this
  have h499 : pyRound1 ((499 : ℚ) / 10) = (499 : ℚ) / 10 := by
    have := pyRound1_tenth 499
    norm_num at this
    exact this
  refine ⟨?_, ?_, ?_, ?_, ?_, ?_⟩ <;>
    · simp only [calculate_grade, h95, h50, h499]
      norm_num [pyTrunc_one]

/-- C3 counterexample: at completed = 1, missed = 2, streak = 0,
focusMinutes = 0 (completionRate 1/3), the source's truncation gives
score 44, while the claimed mathematical-floor formula gives 43 — so the
claimed formula does not describe the code. -/
theorem c3_trunc_vs_floor_counterexample :
    calculate_discipline_score 1 2 0 0 = 44 ∧
    discipline_score_claimed_floor 1 2 0 0 = 43 := by
  have hrate : ((1 : ℕ) : ℚ) / (((1 : ℕ) : ℚ) + ((2 : ℕ) : ℚ)) - 1/2 = (1 : ℚ)/3 - 1/2 := by
    norm_num
  have htr : pyTrunc ((((1 : ℕ) : ℚ) / (((1 : ℕ) : ℚ) + ((2 : ℕ) : ℚ)) - 1/2) * 40) = -6 := by
    rw [hrate, pyTrunc_third_term]
  have hfl : ⌊((((1 : ℕ) : ℚ) / (((1 : ℕ) : ℚ) + ((2 : ℕ) : ℚ)) - 1/2) * 40)⌋ = -7 := by
    rw [hrate]
    have h : ((1 : ℚ)/3 - 1/2) * 40 = -(20/3) := by norm_num
    rw [h, Int.floor_eq_iff]
    norm_num
  constructor
  · simp only [calculate_discipline_score, htr]
    decide
  · simp only [discipline_score_claimed_floor, hfl]
    decide

/-- C3 (amended): for completed + missed > 0 the discipline score equals
clamp(50 + t + min(20, streak·2) + min(10, floor(focusMinutes/30)), 0,
100), where t = int(d) with d the IEEE-754 binary64 evaluation of
(completed/(completed+missed) − 0.5)·40 (each operation rounded to
nearest, ties to even) and int() truncating toward zero — not the
mathematical floor of the exact value, and not exact-rational truncation
either: with completionRate = 1/3 the term is int(−6.666666666666667) =
−6 (floor gives −7), while with completionRate = 3/5 the doubles give
(0.6 − 0.5)·40 = 3.9999999999999996, so the term is 3 where exact
arithmetic gives 4, and score(3, 2, 0, 0) = 53, not 54. -/
theorem c3_discipline_float_formula (completed missed streak focus_time : ℕ)
    (h : 0 < completed + missed) :
    calculate_discipline_score_float completed missed streak focus_time =
      max 0 (min 100 (50 + float_rate_term completed missed
        + min 20 ((streak : ℤ) * 2) + min 10 ((focus_time / 30 : ℕ) : ℤ))) ∧
    float_rate_term 1 2 = -6 ∧
    float_rate_term 3 2 = 3 ∧
    pyTrunc ((((3:ℕ) : ℚ) / (((3:ℕ) : ℚ) + ((2:ℕ) : ℚ)) - 1/2) * 40) = 4 ∧
    calculate_discipline_score_float 3 2 0 0 = 53 ∧
    calculate_discipline_score 3 2 0 0 = 54 := by
  refine ⟨?_, float_rate_term_one_two, float_rate_term_three_two,
    pyTrunc_exact_three_fifths, ?_, ?_⟩
  · simp only [calculate_discipline_score_float, gt_iff_lt, h, if_true]
  · simp only [calculate_discipline_score_float, float_rate_term_three_two]
    decide
  · simp only [calculate_discipline_score, pyTrunc_exact_three_fifths]
    decide

/-- Witness for C3's amended theorem at completed = 3, missed = 1,
streak = 2, focusMinutes = 7. -/
theorem c3_discipline_float_formula_witness :
    calculate_discipline_score_float 3 1 2 7 =
      max 0 (min 100 (50 + float_rate_term 3 1
        + min 20 (((2 : ℕ) : ℤ) * 2) + min 10 (((7 / 30 : ℕ) : ℤ)))) ∧
    float_rate_term 1 2 = -6 ∧
    float_rate_term 3 2 = 3 ∧
    pyTrunc ((((3:ℕ) : ℚ) / (((3:ℕ) : ℚ) + ((2:ℕ) : ℚ)) - 1/2) * 40) = 4 ∧
    calculate_discipline_score_float 3 2 0 0 = 53 ∧
    calculate_discipline_score 3 2 0 0 = 54 :=
  c3_discipline_float_formula 3 1 2 7 (by decide)

/-- C4: the streak boundaries — 86399 s elapsed leaves the streak and
gives multiplier 1.0; 86400 s and 172799 s increment and give
min(1 + (s+1)·0.1, 3.0); 172800 s resets to 0 with multiplier 1.0. -/
theorem c4_streak_boundaries (s : ℕ) :
    calculate_streak 86399 s = (s, 1) ∧
    calculate_streak 86400 s = (s + 1, min (1 + ((s + 1 : ℕ) : ℚ) * (1/10)) 3) ∧
    calculate_streak 172799 s = (s + 1, min (1 + ((s + 1 : ℕ) : ℚ) * (1/10)) 3) ∧
    calculate_streak 172800 s = (0, 1) := by
  refine ⟨?_, ?_, ?_, ?_⟩ <;> simp only [calculate_streak] <;> norm_num

/-- Witness for C4 at streak 5. -/
theorem c4_streak_boundaries_witness :
    calculate_streak 86399 5 = (5, 1) ∧
    calculate_streak 86400 5 = (5 + 1, min (1 + ((5 + 1 : ℕ) : ℚ) * (1/10)) 3) ∧
    calculate_streak 172799 5 = (5 + 1, min (1 + ((5 + 1 : ℕ) : ℚ) * (1/10)) 3) ∧
    calculate_streak 172800 5 = (0, 1) :=
  c4_streak_boundaries 5

/-- C6: the discipline score is always within [0, 100]. -/
theorem c6_discipline_score_in_range (completed missed streak focus_time : ℕ) :
    0 ≤ calculate_discipline_score completed missed streak focus_time ∧
    calculate_discipline_score completed missed streak focus_time ≤ 100 := by
  unfold calculate_discipline_score
  exact ⟨le_max_left 0 _, max_le (by norm_num) (min_le_left 100 _)⟩

/-- Witness for C6 at completed = 2, missed = 1, streak = 3,
focusMinutes = 60. -/
theorem c6_discipline_score_in_range_witness :
    0 ≤ calculate_discipline_score 2 1 3 60 ∧
    calculate_discipline_score 2 1 3 60 ≤ 100 :=
  c6_discipline_score_in_range 2 1 3 60

/-- C5: `levelFromXp` is monotonic non-decreasing and saturates at the
1000 cap for every XP ≥ `xpForNextLevel(999)` = 99800100. -/
theorem c5_level_monotone_saturates :
    (∀ x y : ℕ, x ≤ y → calculate_level_from_xp x ≤ calculate_level_from_xp y) ∧
    (∀ x : ℕ, 99800100 ≤ x → calculate_level_from_xp x = 1000) ∧
    xp_for_next_level 999 = 99800100 := by
  refine ⟨?_, ?_, by decide⟩
  · intro x y hxy
    simp only [calculate_level_from_xp]
    exact max_le_max (le_refl 1)
      (min_le_min (le_refl 1000)
        (Nat.succ_le_succ (Nat.sqrt_le_sqrt (Nat.div_le_div_right hxy))))
  · intro x hx
    simp only [calculate_level_from_xp]
    have h1 : (998001 : ℕ) ≤ x / 100 := by
      calc (998001 : ℕ) = 99800100 / 100 := by norm_num
        _ ≤ x / 100 := Nat.div_le_div_right hx
    have h2 : (999 : ℕ) ≤ Nat.sqrt (x / 100) := by
      rw [Nat.le_sqrt]
      calc (999 : ℕ) * 999 = 998001 := by norm_num
        _ ≤ x / 100 := h1
    have h3 : (1000 : ℕ) ≤ Nat.sqrt (x / 100) + 1 := Nat.succ_le_succ h2
    rw [min_eq_left h3, max_eq_right]
    norm_num

/-- Witness for C5 at XP 120 ≤ 500 and at the saturation threshold. -/
theorem c5_level_monotone_saturates_witness :
    calculate_level_from_xp 120 ≤ calculate_level_from_xp 500 ∧
    calculate_level_from_xp 99800100 = 1000 :=
  ⟨c5_level_monotone_saturates.1 120 500 (by decide),
   c5_level_monotone_saturates.2.1 99800100 (le_refl _)⟩

/-- C9: the achievement evaluator returns an id exactly when its
predicate holds (for each of the six table entries), returns nothing
outside the table, and on the snapshot {tasksCompleted: 1, tasksToday: 0,
currentStreak: 0, level: 1, totalFocusSessions: 0, disciplineScore: 50}
returns exactly ["first_task"]. -/
theorem c9_achievements_exact :
    (∀ s : UserStats,
      ("first_task" ∈ check_achievements s ↔ 1 ≤ s.tasks_completed) ∧
      ("speed_demon" ∈ check_achievements s ↔ 5 ≤ s.tasks_today) ∧
      ("week_warrior" ∈ check_achievements s ↔ 7 ≤ s.current_streak) ∧
      ("level_10" ∈ check_achievements s ↔ 10 ≤ s.level) ∧
      ("focus_master" ∈ check_achievements s ↔ 100 ≤ s.total_focus_sessions) ∧
      ("discipline_god" ∈ check_achievements s ↔ 90 ≤ s.discipline_score)) ∧
    (∀ s : UserStats, check_achievements s ⊆
      ["first_task", "speed_demon", "week_warrior", "level_10",
       "focus_master", "discipline_god"]) ∧
    check_achievements
      { tasks_completed := 1, tasks_today := 0, current_streak := 0,
        level := 1, total_focus_sessions := 0, discipline_score := 50 } =
      ["first_task"] := by
  refine ⟨?_, ?_, by rfl⟩
  · intro s
    refine ⟨?_, ?_, ?_, ?_, ?_, ?_⟩ <;>
      simp [check_achievements, ACHIEVEMENTS, List.mem_filter]
  · intro s
    have h : check_achievements s ⊆ ACHIEVEMENTS.map Prod.fst :=
      ((List.filter_sublist _).map Prod.fst).subset
    simpa [ACHIEVEMENTS] using h

/-- Witness for C9: "first_task" is returned on the sample snapshot and
lies in the achievement table. -/
theorem c9_achievements_exact_witness :
    "first_task" ∈
      ["first_task", "speed_demon", "week_warrior", "level_10",
       "focus_master", "discipline_god"] :=
  c9_achievements_exact.2.1
    { tasks_completed := 1, tasks_today := 0, current_streak := 0,
      level := 1, total_focus_sessions := 0, discipline_score := 50 }
    (by decide)

/-- C7: with fewer than 7 sessions burnout detection reports low risk
with the insufficient-data message; with 7 or more it depends only on the
last 7 sessions and reports high when their mean duration exceeds 360
minutes, else medium when strictly fewer than half are successful, else
low with the positive message — duration checked first. -/
theorem c7_burnout_characterization :
    (∀ l : List FocusSession, l.length < 7 →
      detect_burnout_risk l = { risk_level := "low", message := .notEnoughData }) ∧
    (∀ l : List FocusSession, 7 ≤ l.length →
      detect_burnout_risk l = detect_burnout_risk (l.drop (l.length - 7))) ∧
    (∀ l : List FocusSession, 7 ≤ l.length →
      detect_burnout_risk l =
        (if 360 < ((((l.drop (l.length - 7)).map
              (fun s => s.duration_minutes)).sum : ℕ) : ℚ) / 7 then
           { risk_level := "high", message := .overworkWarning }
         else if ((((l.drop (l.length - 7)).filter
              (fun s => s.successful)).length : ℕ) : ℚ) / 7 < 1/2 then
           { risk_level := "medium", message := .droppingRate }
         else { risk_level := "low", message := .doingGreat })) := by
  refine ⟨?_, ?_, ?_⟩
  · intro l h
    simp only [detect_burnout_risk, if_pos h]
  · intro l h
    have hlen : (l.drop (l.length - 7)).length = 7 := by
      rw [List.length_drop]
      exact Nat.sub_sub_self h
    simp only [detect_burnout_risk, hlen, Nat.sub_self, List.drop_zero,
      if_neg (not_lt.mpr h), if_neg (lt_irrefl 7)]
  · intro l h
    simp only [detect_burnout_risk, if_neg (not_lt.mpr h)]

/-- Witness for C7 on a concrete 6-session history (insufficient data). -/
theorem c7_burnout_characterization_witness :
    detect_burnout_risk
        [⟨400, true⟩, ⟨400, true⟩, ⟨400, true⟩,
         ⟨400, true⟩, ⟨400, true⟩, ⟨400, true⟩] =
      { risk_level := "low", message := .notEnoughData } :=
  c7_burnout_characterization.1 _ (by decide)

/-- C8: completing an already-completed task or boss challenge fails
with the already-completed error and leaves the whole state (task,
challenge, user, skill tree) unchanged. -/
theorem c8_already_completed_no_mutation :
    (∀ (st : TaskState) (elapsed : ℚ) (t : TaskRec),
      st.task = some t → t.completed = true →
      complete_task st elapsed = (st, .error .alreadyCompleted)) ∧
    (∀ (st : BossState) (c : BossRec),
      st.challenge = some c → c.completed = true →
      complete_boss st = (st, .error .alreadyCompleted)) := by
  constructor
  · intro st elapsed t ht hc
    unfold complete_task
    rw [ht]
    simp [hc]
  · intro st c hc hcomp
    unfold complete_boss
    rw [hc]
    simp [hcomp]

/-- Witness for C8 on a concrete already-completed task. -/
theorem c8_already_completed_no_mutation_witness :
    complete_task
        { user := { total_xp := 0, xp := 0, level := 1,
                    current_streak := 0, longest_streak := 0 },
          task := some { completed := true, xp_reward := 10 },
          skill := { xp := 0, total_xp := 0, level := 1 } } 0 =
      ({ user := { total_xp := 0, xp := 0, level := 1,
                   current_streak := 0, longest_streak := 0 },
         task := some { completed := true, xp_reward := 10 },
         skill := { xp := 0, total_xp := 0, level := 1 } },
       .error .alreadyCompleted) :=
  c8_already_completed_no_mutation.1 _ 0 { completed := true, xp_reward := 10 }
    rfl rfl

/-- An XP total of 99800100 reaches the level-1000 cap. -/
theorem level_from_xp_at_cap : calculate_level_from_xp 99800100 = 1000 := by
  have hsqrt : Nat.sqrt (99800100 / 100) = 999 := by norm_num
  simp only [calculate_level_from_xp, hsqrt]
  decide

/-- When the divisor `xp_for_next_level(new_level)` is zero, the source's
`complete_task` marks the task completed, then aborts with
`ZeroDivisionError` before touching the user or skill-tree records. -/
theorem complete_task_zero_div (st : TaskState) (e : ℚ) (t : TaskRec)
    (ht : st.task = some t) (hc : t.completed = false)
    (hz : xp_for_next_level
      (calculate_level_from_xp (st.user.total_xp + t.xp_reward)) = 0) :
    complete_task st e =
      ({ st with task := some { t with completed := true } },
       .error .zeroDivisionError) := by
  unfold complete_task
  rw [ht]
  simp only [hc, Bool.false_eq_true, if_false, hz, pyMod, if_pos rfl]
  simp

/-- C1 (failing-input evaluation): completing a non-completed task worth
100 XP for a user holding 99800000 XP drives the new level to the 1000
cap, where `xp_for_next_level` returns 0 and the residual-xp computation
`new_total_xp % 0` raises `ZeroDivisionError` — the task is already
marked completed at that point, the user and skill-tree records are not
updated, and the update does not complete, contradicting the claim that
the update always completes with clamped behavior. -/
theorem c1_level_cap_zero_division :
    complete_task
        { user := { total_xp := 99800000, xp := 0, level := 999,
                    current_streak := 0, longest_streak := 0 },
          task := some { completed := false, xp_reward := 100 },
          skill := { xp := 0, total_xp := 0, level := 1 } } 0 =
      ({ user := { total_xp := 99800000, xp := 0, level := 999,
                   current_streak := 0, longest_streak := 0 },
         task := some { completed := true, xp_reward := 100 },
         skill := { xp := 0, total_xp := 0, level := 1 } },
       .error .zeroDivisionError) ∧
    calculate_level_from_xp (99800000 + 100) = 1000 ∧
    xp_for_next_level 1000 = 0 :=
  ⟨complete_task_zero_div _ 0 _ rfl rfl
      (by norm_num [level_from_xp_at_cap, xp_for_next_level]),
   by norm_num [level_from_xp_at_cap],
   by decide⟩

/-- C10: the streak multiplier used at task creation,
`1.0 + currentStreak*0.1`, is uncapped and exceeds 3.0 for every streak
above 20, while the streak engine's own multiplier never exceeds 3.0. -/
theorem c10_creation_multiplier_uncapped :
    (∀ s : ℕ, 20 < s → 3 < create_task_streak_multiplier s) ∧
    (∀ (elapsed : ℚ) (s : ℕ), (calculate_streak elapsed s).2 ≤ 3) := by
  constructor
  · intro s hs
    unfold create_task_streak_multiplier
    have h21 : (21 : ℚ) ≤ (s : ℚ) := by exact_mod_cast hs
    linarith
  · intro elapsed s
    unfold calculate_streak
    split
    · norm_num
    · split
      · exact min_le_right _ _
      · norm_num

/-- Witness for C10 at streak 21 (and the engine multiplier at an
arbitrary concrete point). -/
theorem c10_creation_multiplier_uncapped_witness :
    3 < create_task_streak_multiplier 21 ∧
    (calculate_streak 90000 5).2 ≤ 3 :=
  ⟨c10_creation_multiplier_uncapped.1 21 (by decide),
   c10_creation_multiplier_uncapped.2 90000 5⟩

end Rebadion
